import Mathlib

/-
Verification development for plasmapy/classes/simulation.py (MHD simulation
module).  The numeric arrays of the Python code (numpy ndarrays carrying
astropy units) are modelled as rational-valued n-dimensional arrays: a shape
(a list of dimension sizes) together with a total data function from
multi-indices to rationals.  Physical units are dropped; float arithmetic is
idealised as exact rational arithmetic.  NumPy broadcasting is modelled
faithfully (right-aligned shape matching, size-1 axes repeated).  Python
exceptions (AssertionError from the shape asserts, ValueError from evaluating
the truth value of a multi-element array, NameError from an undefined name)
are modelled with an Except monad.
-/

namespace PlasmaPy

/-- An n-dimensional array of rationals: a shape and a total data function on
multi-indices.  Indices outside the shape are junk (the data function is
total); all stated properties quantify only over valid indices. -/
structure NDArr where
  shape : List ℕ
  data : List ℕ → ℚ

/-- Number of elements, the product of the dimension sizes (numpy `.size`). -/
def NDArr.size (a : NDArr) : ℕ := a.shape.foldl (· * ·) 1

/-- `validIdxB dims idx` holds when `idx` is a componentwise in-bounds
multi-index of the same length as `dims`. -/
def validIdxB : List ℕ → List ℕ → Bool
  | d :: ds, i :: is => decide (i < d) && validIdxB ds is
  | [], [] => true
  | _, _ => false

/-- NumPy broadcast of two reversed shapes (least-significant axis first). -/
def bshapeRev : List ℕ → List ℕ → List ℕ
  | [], l => l
  | a :: as, [] => a :: as
  | a :: as, b :: bs =>
      (if a = 1 then b else if b = 1 then a else if a = b then a else 0) ::
        bshapeRev as bs

/-- NumPy broadcast of two shapes (right-aligned; a dimension of size 1
stretches; incompatible dimensions are mapped to the empty size 0). -/
def bshape (s t : List ℕ) : List ℕ := (bshapeRev s.reverse t.reverse).reverse

/-- Map a broadcast multi-index back into an array of the given shape:
axes of size 1 always read position 0. -/
def fixIdx : List ℕ → List ℕ → List ℕ
  | d :: ds, i :: is => (if d = 1 then 0 else i) :: fixIdx ds is
  | _, _ => []

/-- Read `a` at a broadcast index of possibly higher rank: the extra leading
axes are dropped and size-1 axes of `a` are pinned to 0 (numpy broadcasting
semantics). -/
def NDArr.bget (a : NDArr) (idx : List ℕ) : ℚ :=
  a.data (fixIdx a.shape (idx.drop (idx.length - a.shape.length)))

/-- Elementwise binary operation with numpy broadcasting. -/
def zipWithB (op : ℚ → ℚ → ℚ) (a b : NDArr) : NDArr :=
  ⟨bshape a.shape b.shape, fun idx => op (a.bget idx) (b.bget idx)⟩

/-- `a + b` with broadcasting. -/
def addB (a b : NDArr) : NDArr := zipWithB (· + ·) a b

/-- `a - b` with broadcasting. -/
def subB (a b : NDArr) : NDArr := zipWithB (· - ·) a b

/-- `a * b` with broadcasting. -/
def mulB (a b : NDArr) : NDArr := zipWithB (· * ·) a b

/-- `a / b` with broadcasting (division by zero yields 0, as in ℚ). -/
def divB (a b : NDArr) : NDArr := zipWithB (· / ·) a b

/-- Scalar times array, `c * a` elementwise. -/
def smulArr (c : ℚ) (a : NDArr) : NDArr := ⟨a.shape, fun idx => c * a.data idx⟩

/-- Array divided by a scalar, `a / c` elementwise. -/
def divSc (a : NDArr) (c : ℚ) : NDArr := ⟨a.shape, fun idx => a.data idx / c⟩

/-- Elementwise negation `-a`. -/
def negArr (a : NDArr) : NDArr := ⟨a.shape, fun idx => -(a.data idx)⟩

/-- Elementwise absolute value `abs(a)`. -/
def absArr (a : NDArr) : NDArr := ⟨a.shape, fun idx => |a.data idx|⟩

/-- The in-place update `a[np.where(a > 0)] = 0`: positive entries zeroed. -/
def zeroWherePos (a : NDArr) : NDArr :=
  ⟨a.shape, fun idx => if 0 < a.data idx then 0 else a.data idx⟩

/-- `a[i]`: index the first axis. -/
def indexAt (a : NDArr) (i : ℕ) : NDArr :=
  ⟨a.shape.tail, fun idx => a.data (i :: idx)⟩

/-- `a[i, j, ...]`: index the first two axes. -/
def indexPair (a : NDArr) (i j : ℕ) : NDArr :=
  ⟨a.shape.drop 2, fun idx => a.data (i :: j :: idx)⟩

/-- `a.reshape(3, 1, *a.shape[1:])`: insert a size-1 axis in second position
(the reshape used by `vdp`; inserting a unit axis does not reorder data). -/
def insertAxis1 (a : NDArr) : NDArr :=
  ⟨a.shape.headD 0 :: 1 :: a.shape.tail, fun idx =>
    match idx with
    | i :: _ :: rest => a.data (i :: rest)
    | other => a.data other⟩

/-- `np.sum(a, axis=0)`: sum over the leading axis. -/
def sumAxis0 (a : NDArr) : NDArr :=
  ⟨a.shape.tail, fun idx =>
    ((List.range (a.shape.headD 0)).map (fun i => a.data (i :: idx))).sum⟩

/-- `np.array([c0, c1, c2])`: stack three same-shaped arrays along a new
leading axis. -/
def stack3 (c0 c1 c2 : NDArr) : NDArr :=
  ⟨3 :: c0.shape, fun idx =>
    match idx with
    | 0 :: rest => c0.data rest
    | 1 :: rest => c1.data rest
    | 2 :: rest => c2.data rest
    | _ => 0⟩

/-- Python built-in `sum` over a list of arrays: folds `+` from the int 0,
which numpy broadcasts against every shape. -/
def pyZero : NDArr := ⟨[], fun _ => 0⟩

/-- Python `sum([...])` on a list of arrays. -/
def pySum (l : List NDArr) : NDArr := l.foldl addB pyZero

/-- A rank-0 array holding one scalar. -/
def scalarArr (c : ℚ) : NDArr := ⟨[], fun _ => c⟩

/-- An array of zeros of the given shape (`np.zeros`). -/
def zerosArr (shape : List ℕ) : NDArr := ⟨shape, fun _ => 0⟩

/-- A constant array of the given shape. -/
def constArr (shape : List ℕ) (c : ℚ) : NDArr := ⟨shape, fun _ => c⟩

/-- Python exceptions relevant to this module. -/
inductive PyErr where
  | assertionError (msg : String)
  | valueError (msg : String)
  | nameError (msg : String)
deriving DecidableEq

/-- `assert cond, msg` (message format arguments elided from the strings). -/
def ensure (p : Prop) [Decidable p] (e : PyErr) : Except PyErr Unit :=
  if p then pure () else throw e

/-- The ValueError numpy raises when a multi-element array is used as a
truth value. -/
def truthErr : PyErr :=
  PyErr.valueError "The truth value of an array with more than one element is ambiguous"

/-- The truth value of a numpy array: raises ValueError for more than one
element, tests the single element against zero otherwise (empty arrays are
falsy). -/
def pyTruthy (a : NDArr) : Except PyErr Bool :=
  if 1 < a.size then throw truthErr
  else if a.size = 1 then
    pure (decide (a.data (List.replicate a.shape.length 0) ≠ 0))
  else pure false

/-- Modelled from the spec: the external finite-difference Solver
(`plasmapy.numerical.spatial_solvers`, not under src/).  Per §6 of the spec it
is constructed from one grid-spacing scalar per active axis and is callable as
`solver(field, axis) -> derivative_field`, and it "must preserve the field's
shape".  Shape preservation is built into the model; the pointwise values are
a black-box function `dval`. -/
structure Solver where
  dx : List ℚ
  dval : NDArr → ℕ → List ℕ → ℚ

/-- `solver(field, axis)`: apply the black-box derivative operator. -/
def Solver.app (s : Solver) (f : NDArr) (axis : ℕ) : NDArr :=
  ⟨f.shape, s.dval f axis⟩

/-- `dot(vec1, vec2)` from simulation.py: elementwise product summed over the
leading axis, with the source's precondition and postcondition asserts. -/
def dot (vec1 vec2 : NDArr) : Except PyErr NDArr := do
  ensure (vec1.shape.headD 0 = 3)
    (PyErr.assertionError "First argument provided is not a vector field")
  ensure (vec2.shape.headD 0 = 3)
    (PyErr.assertionError "Second argument provided is not a vector field")
  ensure (vec1.shape = vec2.shape)
    (PyErr.assertionError "Shapes of vectors provided do not match")
  let product := sumAxis0 (mulB vec1 vec2)
  ensure (product.shape = vec1.shape.tail)
    (PyErr.assertionError "Result calculated has incorrect shape")
  pure product

/-- `cross(vec1, vec2)` from simulation.py: componentwise 3-vector cross
product (units dropped). -/
def cross (vec1 vec2 : NDArr) : Except PyErr NDArr := do
  ensure (vec1.shape.headD 0 = 3)
    (PyErr.assertionError "First argument provided is not a vector field")
  ensure (vec2.shape.headD 0 = 3)
    (PyErr.assertionError "Second argument provided is not a vector field")
  ensure (vec1.shape = vec2.shape)
    (PyErr.assertionError "Shapes of vectors provided do not match")
  let product := stack3
    (subB (mulB (indexAt vec1 1) (indexAt vec2 2))
          (mulB (indexAt vec1 2) (indexAt vec2 1)))
    (subB (mulB (indexAt vec1 2) (indexAt vec2 0))
          (mulB (indexAt vec1 0) (indexAt vec2 2)))
    (subB (mulB (indexAt vec1 0) (indexAt vec2 1))
          (mulB (indexAt vec1 1) (indexAt vec2 0)))
  ensure (product.shape = vec1.shape)
    (PyErr.assertionError "Result calculated has incorrect shape")
  pure product

/-- The body of `grad` after its assert: zeros of shape (3, *f.shape) with
component `dim` set to `solver(f, dim)` for each active axis; the unused
components of sub-3D domains stay zero. -/
def gradCore (f : NDArr) (s : Solver) : NDArr :=
  ⟨3 :: f.shape, fun idx =>
    match idx with
    | i :: rest => if i < s.dx.length then s.dval f i rest else 0
    | [] => 0⟩

/-- `grad(f, solver)` from simulation.py.  NOTE (faithful to the source): the
precondition assert formats its message with `len(h)` but `h` is not a name in
scope, so a violated precondition raises NameError, not the intended
AssertionError. -/
def grad (f : NDArr) (s : Solver) : Except PyErr NDArr := do
  if s.dx.length = f.shape.length then pure ()
    else throw (PyErr.nameError "name h is not defined")
  pure (gradCore f s)

/-- `div(vec, solver)` from simulation.py: sum of `solver(vec[i], i)` over the
active axes, with the source's asserts. -/
def div (vec : NDArr) (s : Solver) : Except PyErr NDArr := do
  ensure (vec.shape.headD 0 = 3)
    (PyErr.assertionError "First argument provided is not a vector field")
  ensure (s.dx.length = vec.shape.tail.length)
    (PyErr.assertionError "Number of grid step sizes not equal to dimensionality of field")
  let divergence :=
    pySum ((List.range s.dx.length).map (fun i => s.app (indexAt vec i) i))
  ensure (divergence.shape = vec.shape.tail)
    (PyErr.assertionError "Output field has incorrect shape")
  pure divergence

/-- `vdp(vec1, vec2)` from simulation.py: the source computes
`vec1 * vec2.reshape(3, 1, *vec2.shape[1:])`, which under numpy broadcasting
yields `tensor[i, j, ...] = vec1[j, ...] * vec2[i, ...]`. -/
def vdp (vec1 vec2 : NDArr) : Except PyErr NDArr := do
  ensure (vec1.shape.headD 0 = 3)
    (PyErr.assertionError "First argument provided is not a vector field")
  ensure (vec2.shape.headD 0 = 3)
    (PyErr.assertionError "Second argument provided is not a vector field")
  ensure (vec1.shape = vec2.shape)
    (PyErr.assertionError "Shapes of vectors provided do not match")
  let tensor := mulB vec1 (insertAxis1 vec2)
  ensure (tensor.shape = 3 :: vec1.shape)
    (PyErr.assertionError "Output field has incorrect shape")
  pure tensor

/-- `tensordiv(tensor, solver)` from simulation.py: componentwise
`sum(solver(tensor[i, j], i) for i in dims)` for each j, with the source's
asserts. -/
def tensordiv (tensor : NDArr) (s : Solver) : Except PyErr NDArr := do
  ensure (tensor.shape.take 2 = [3, 3])
    (PyErr.assertionError "First argument provided is not a tensor field")
  ensure (s.dx.length = (tensor.shape.drop 2).length)
    (PyErr.assertionError "Number of grid step sizes not equal to dimensionality of field")
  let dims := List.range s.dx.length
  let divergence := stack3
    (pySum (dims.map (fun i => s.app (indexPair tensor i 0) i)))
    (pySum (dims.map (fun i => s.app (indexPair tensor i 1) i)))
    (pySum (dims.map (fun i => s.app (indexPair tensor i 2) i)))
  ensure (divergence.shape = tensor.shape.tail)
    (PyErr.assertionError "Output field has incorrect shape")
  pure divergence

/-- `vt_dot(vec, tensor)` from simulation.py.  NOTE (faithful to the source):
the contraction index set is `dims = range(len(vec.shape[1:]))`, the number of
spatial axes, not range(3). -/
def vt_dot (vec tensor : NDArr) : Except PyErr NDArr := do
  ensure (vec.shape.headD 0 = 3)
    (PyErr.assertionError "First argument provided is not a vector field")
  ensure (tensor.shape.take 2 = [3, 3])
    (PyErr.assertionError "Second argument provided is not a tensor field")
  let dims := List.range vec.shape.tail.length
  let d := stack3
    (pySum (dims.map (fun i => mulB (indexAt vec i) (indexPair tensor i 0))))
    (pySum (dims.map (fun i => mulB (indexAt vec i) (indexPair tensor i 1))))
    (pySum (dims.map (fun i => mulB (indexAt vec i) (indexPair tensor i 2))))
  ensure (d.shape = tensor.shape.tail)
    (PyErr.assertionError "Output field has incorrect shape")
  pure d

/-- Modelled from the spec: the square root of the magnetic constant mu0
(`plasmapy.constants`, not under src/).  Its physical value is irrational; it
is represented here by a positive rational approximation.  No verified claim
depends on its value. -/
def sqrtMu0 : ℚ := 11209982 / 10000000000

/-- Modelled from the spec: the PlasmaState contract of §6 (the plasma class
is not under src/).  It exposes the four evolved core fields as mutable
handles, the coordinate-derived `domain_shape`, the adiabatic index, and
sound/Alfven speeds, each reducible to a scalar maximum (only the maxima are
consumed by this module). -/
structure Plasma where
  density : NDArr
  momentum : NDArr
  energy : NDArr
  magnetic_field : NDArr
  domain_shape : List ℕ
  gamma : ℚ
  sound_speed_max : ℚ
  alfven_speed_max : ℚ

/-- Modelled from the spec: derived velocity = momentum / density (§3). -/
def Plasma.velocity (p : Plasma) : NDArr := divB p.momentum p.density

/-- Modelled from the spec and the class docstring of MHDSimulation:
derived pressure p = (gamma - 1) * (e - rho * v^2 / 2). -/
def Plasma.pressure (p : Plasma) : NDArr :=
  let v2 := sumAxis0 (mulB p.velocity p.velocity)
  smulArr (p.gamma - 1) (subB p.energy (smulArr (1 / 2) (mulB p.density v2)))

/-- The ordered core variables [density, momentum, energy, magnetic_field],
as a record (the working arrays mutated in place by the stepper). -/
structure Core where
  density : NDArr
  momentum : NDArr
  energy : NDArr
  magfield : NDArr

/-- Snapshot of the plasma core variables. -/
def Plasma.core (p : Plasma) : Core :=
  ⟨p.density, p.momentum, p.energy, p.magnetic_field⟩

/-- Write a core snapshot back into the plasma record. -/
def Plasma.withCore (p : Plasma) (c : Core) : Plasma :=
  { p with density := c.density, momentum := c.momentum,
           energy := c.energy, magnetic_field := c.magfield }

/-- Fieldwise binary operation on core snapshots. -/
def Core.map2 (f : NDArr → NDArr → NDArr) (a b : Core) : Core :=
  ⟨f a.density b.density, f a.momentum b.momentum,
   f a.energy b.energy, f a.magfield b.magfield⟩

/-- Fieldwise scalar multiple of a core snapshot. -/
def Core.smul (c : ℚ) (a : Core) : Core :=
  ⟨smulArr c a.density, smulArr c a.momentum, smulArr c a.energy,
   smulArr c a.magfield⟩

/-- Fieldwise division of a core snapshot by a scalar. -/
def Core.divS (a : Core) (c : ℚ) : Core :=
  ⟨divSc a.density c, divSc a.momentum c, divSc a.energy c, divSc a.magfield c⟩

/-- The MHDSimulation state: dt, time, iteration counter, the plasma, and the
primary Solver (built in __init__ from the coordinate grids). -/
structure Sim where
  dt : ℚ
  current_time : ℚ
  current_iteration : ℕ
  plasma : Plasma
  solver : Solver

/-- Replace the plasma core variables of a simulation state. -/
def Sim.withCore (s : Sim) (c : Core) : Sim :=
  { s with plasma := s.plasma.withCore c }

/-- The `if not field:` pattern of the RHS evaluators: evaluate the truth
value of the optional override (raising ValueError for a multi-element
array), and fall back to the stored field when the override is absent or
falsy. -/
def resolveOverride (stored : NDArr) (ov : Option NDArr) : Except PyErr NDArr :=
  match ov with
  | none => pure stored
  | some arr => do
      let t ← pyTruthy arr
      if t then pure arr else pure stored

/-- `MHDSimulation.hyperdiff_viscosity(param, paramaxis)`: with the
higher-order refinement commented out in the source, this is
`c * dx[paramaxis] * (max Alfven speed + max sound speed)` with `c = 1`; the
`param` argument is not used. -/
def hyperdiff_viscosity (sim : Sim) (param : NDArr) (paramaxis : ℕ) : ℚ :=
  let vt := sim.plasma.alfven_speed_max + sim.plasma.sound_speed_max
  let c : ℚ := 1
  c * sim.solver.dx.getD paramaxis 0 * vt

/-- `MHDSimulation.shock_viscosity(paramaxis)`:
`0.4 * dx[paramaxis]^2 * abs(delv)` after zeroing the positive part of
`delv = div(velocity)`. -/
def shock_viscosity (sim : Sim) (paramaxis : ℕ) : Except PyErr NDArr := do
  let c : ℚ := 2 / 5
  let dx := sim.solver.dx.getD paramaxis 0
  let delv ← div sim.plasma.velocity sim.solver
  pure (smulArr (c * dx ^ 2) (absArr (zeroWherePos delv)))

/-- `MHDSimulation.total_viscosity(param, paramaxis)`: hyperdiffusion scalar
plus shock viscosity field (the scalar broadcasts). -/
def total_viscosity (sim : Sim) (param : NDArr) (paramaxis : ℕ) :
    Except PyErr NDArr := do
  let sv ← shock_viscosity sim paramaxis
  pure (addB (scalarArr (hyperdiff_viscosity sim param paramaxis)) sv)

/-- Set the `[0, 0]` block of a rank >= 2 array (the assignment
`visctens[0, 0] = slot`). -/
def setSlot00 (a : NDArr) (slot : NDArr) : NDArr :=
  ⟨a.shape, fun idx =>
    match idx with
    | 0 :: 0 :: rest => slot.data rest
    | other => a.data other⟩

/-- `MHDSimulation.viscous_tensor`: zeros of shape (3, 3, *domain) with the
[0,0] component set to `visc * v_solver(v[0], 0) * 2`, all scaled by
`0.5 * rho`.  The fresh `v_solver = Solver(self.solver.dx)` is a second
instance of the external solver with the same spacings, modelled as the same
black-box operator. -/
def viscous_tensor (sim : Sim) : Except PyErr NDArr := do
  let rho := sim.plasma.density
  let v := sim.plasma.velocity
  let visc ← total_viscosity sim (indexAt v 0) 0
  let slot := smulArr 2 (mulB visc (sim.solver.app (indexAt v 0) 0))
  let base := setSlot00 (zerosArr (3 :: 3 :: sim.plasma.domain_shape)) slot
  let visctens := mulB base (smulArr (1 / 2) rho)
  ensure (visctens.shape = 3 :: 3 :: sim.plasma.domain_shape)
    (PyErr.assertionError "Viscous tensor calculated with incorrect shape")
  pure visctens

/-- `MHDSimulation._ddt_density(t, density)`: continuity equation RHS. -/
def ddt_density (sim : Sim) (t : ℚ) (ov : Option NDArr) :
    Except PyErr NDArr := do
  let density ← resolveOverride sim.plasma.density ov
  let nu ← total_viscosity sim sim.plasma.density 0
  let D_rho := mulB (sim.solver.app nu 0) (sim.solver.app sim.plasma.density 0)
  let dv ← div (mulB sim.plasma.velocity density) sim.solver
  pure (subB D_rho dv)

/-- `MHDSimulation._ddt_momentum(t, momentum)`: momentum equation RHS. -/
def ddt_momentum (sim : Sim) (t : ℚ) (ov : Option NDArr) :
    Except PyErr NDArr := do
  let momentum ← resolveOverride sim.plasma.momentum ov
  let v := sim.plasma.velocity
  let B := divSc sim.plasma.magnetic_field sqrtMu0
  let vt ← viscous_tensor sim
  let D_mom ← tensordiv vt sim.solver
  let gp ← grad sim.plasma.pressure sim.solver
  let t1 ← vdp v momentum
  let t2 ← vdp B B
  let td ← tensordiv (subB t1 t2) sim.solver
  pure (subB (subB D_mom gp) td)

/-- `MHDSimulation._ddt_energy(t, energy)`: energy equation RHS (the Ohmic
term is commented out in the source). -/
def ddt_energy (sim : Sim) (t : ℚ) (ov : Option NDArr) :
    Except PyErr NDArr := do
  let energy ← resolveOverride sim.plasma.energy ov
  let v := sim.plasma.velocity
  let B := divSc sim.plasma.magnetic_field sqrtMu0
  let vt ← viscous_tensor sim
  let vtd ← vt_dot v vt
  let d_visc ← div vtd sim.solver
  let nu ← total_viscosity sim sim.plasma.energy 0
  let d_diff := mulB (sim.solver.app nu 0) (sim.solver.app sim.plasma.energy 0)
  let D_e := addB d_diff d_visc
  let bv ← dot B v
  let flux := addB (subB (mulB v energy) (mulB B bv))
                   (mulB v sim.plasma.pressure)
  let dd ← div flux sim.solver
  pure (subB D_e dd)

/-- `MHDSimulation._ddt_magfield(t, magfield)`: induction equation RHS. -/
def ddt_magfield (sim : Sim) (t : ℚ) (ov : Option NDArr) :
    Except PyErr NDArr := do
  let B ← match ov with
    | none => pure (divSc sim.plasma.magnetic_field sqrtMu0)
    | some mf => do
        let t ← pyTruthy mf
        if t then pure (divSc mf sqrtMu0)
        else pure (divSc sim.plasma.magnetic_field sqrtMu0)
  let v := sim.plasma.velocity
  let t1 ← vdp v B
  let t2 ← vdp B v
  let td ← tensordiv (subB t1 t2) sim.solver
  pure (smulArr sqrtMu0 (negArr td))

/-- `MHDSimulation.epsilon`: `nu * solver(B / sqrt(mu0), 0)` (unused by the
live RHS path; the Ohmic term consuming it is commented out). -/
def epsilon (sim : Sim) : Except PyErr NDArr := do
  let nu ← total_viscosity sim (divSc sim.plasma.magnetic_field sqrtMu0) 0
  pure (mulB nu (sim.solver.app (divSc sim.plasma.magnetic_field sqrtMu0) 0))

/-- One RK4 stage: evaluate all four RHS functions in equation order against
the current working state, each passed its own core variable as override
(None at stage 1). -/
def evalAll (sim : Sim) (t : ℚ) (ov : Option Core) : Except PyErr Core := do
  let kd ← ddt_density sim t (ov.map Core.density)
  let km ← ddt_momentum sim t (ov.map Core.momentum)
  let ke ← ddt_energy sim t (ov.map Core.energy)
  let kb ← ddt_magfield sim t (ov.map Core.magfield)
  pure ⟨kd, km, ke, kb⟩

/-- `MHDSimulation.time_stepper()`: the four-stage RK4 cycle of the source,
with the in-place `np.add(..., out=f)` updates rendered as explicit state
passing.  Working state after stage 1 is `f0 + k1/2`; stages 2 and 3 rebuild
from the snapshot (`f0 + k2/2`, `f0 + k3`); the commit writes
`f0 + (k1 + 2 k2 + 2 k3 + k4)/6` and advances time and iteration. -/
def time_stepper (sim : Sim) : Except PyErr Sim := do
  let half_dt := sim.dt / 2
  let orig := sim.plasma.core
  let r1 ← evalAll sim sim.current_time none
  let k1 := Core.smul sim.dt r1
  let w1 := Core.map2 addB orig (Core.divS k1 2)
  let sim1 := sim.withCore w1
  let r2 ← evalAll sim1 (sim.current_time + half_dt) (some w1)
  let k2 := Core.smul sim.dt r2
  let w2 := Core.map2 addB orig (Core.divS k2 2)
  let sim2 := sim.withCore w2
  let r3 ← evalAll sim2 (sim.current_time + half_dt) (some w2)
  let k3 := Core.smul sim.dt r3
  let w3 := Core.map2 addB orig k3
  let sim3 := sim.withCore w3
  let r4 ← evalAll sim3 (sim.current_time + sim.dt) (some w3)
  let k4 := Core.smul sim.dt r4
  let derivs := Core.map2 addB
    (Core.map2 addB (Core.map2 addB k1 (Core.smul 2 k2)) (Core.smul 2 k3)) k4
  let final := Core.map2 addB orig (Core.divS derivs 6)
  pure { (sim.withCore final) with
         current_time := sim.current_time + sim.dt,
         current_iteration := sim.current_iteration + 1 }

/-! ### Shape lemmas for the broadcasting model -/

theorem bshapeRev_nil_right (l : List ℕ) : bshapeRev l [] = l := by
  cases l <;> rfl

theorem bshapeRev_append (l m n : List ℕ) :
    bshapeRev (l ++ m) (l ++ n) = l ++ bshapeRev m n := by
  induction l with
  | nil => rfl
  | cons a as ih =>
      simp only [List.cons_append, bshapeRev]
      by_cases h : a = 1 <;> simp [h, ih]

theorem bshape_self (s : List ℕ) : bshape s s = s := by
  have h := bshapeRev_append s.reverse [] []
  simp only [List.append_nil] at h
  simp [bshape, h, bshapeRev]

theorem bshape_nil_left (s : List ℕ) : bshape [] s = s := by
  simp [bshape, bshapeRev]

theorem bshape_nil_right (s : List ℕ) : bshape s [] = s := by
  simp [bshape, bshapeRev_nil_right]

theorem bshape_cons_self (x : ℕ) (s : List ℕ) : bshape (x :: s) s = x :: s := by
  have h := bshapeRev_append s.reverse [x] []
  simp only [List.append_nil] at h
  simp [bshape, List.reverse_cons, h, bshapeRev_nil_right]

theorem bshape_self_cons (x : ℕ) (s : List ℕ) : bshape s (x :: s) = x :: s := by
  have h := bshapeRev_append s.reverse [] [x]
  simp only [List.append_nil] at h
  simp [bshape, List.reverse_cons, h, bshapeRev]

theorem bshape_cons2_self (x y : ℕ) (s : List ℕ) :
    bshape (x :: y :: s) s = x :: y :: s := by
  have h := bshapeRev_append s.reverse [y, x] []
  simp only [List.append_nil] at h
  simp [bshape, List.reverse_cons, h, bshapeRev_nil_right]

theorem bshape_vdp (s : List ℕ) : bshape (3 :: s) (3 :: 1 :: s) = 3 :: 3 :: s := by
  have h := bshapeRev_append s.reverse [3] [1, 3]
  have hr : bshapeRev [3] [1, 3] = [3, 3] := rfl
  rw [hr] at h
  simp [bshape, List.reverse_cons, h]

theorem shape_zipWithB (op : ℚ → ℚ → ℚ) (a b : NDArr) :
    (zipWithB op a b).shape = bshape a.shape b.shape := rfl

theorem shape_addB (a b : NDArr) : (addB a b).shape = bshape a.shape b.shape := rfl

theorem shape_subB (a b : NDArr) : (subB a b).shape = bshape a.shape b.shape := rfl

theorem shape_mulB (a b : NDArr) : (mulB a b).shape = bshape a.shape b.shape := rfl

theorem shape_divB (a b : NDArr) : (divB a b).shape = bshape a.shape b.shape := rfl

theorem shape_smulArr (c : ℚ) (a : NDArr) : (smulArr c a).shape = a.shape := rfl

theorem shape_divSc (a : NDArr) (c : ℚ) : (divSc a c).shape = a.shape := rfl

theorem shape_negArr (a : NDArr) : (negArr a).shape = a.shape := rfl

theorem shape_absArr (a : NDArr) : (absArr a).shape = a.shape := rfl

theorem shape_zeroWherePos (a : NDArr) : (zeroWherePos a).shape = a.shape := rfl

theorem shape_indexAt (a : NDArr) (i : ℕ) : (indexAt a i).shape = a.shape.tail := rfl

theorem shape_indexPair (a : NDArr) (i j : ℕ) :
    (indexPair a i j).shape = a.shape.drop 2 := rfl

theorem shape_insertAxis1 (a : NDArr) :
    (insertAxis1 a).shape = a.shape.headD 0 :: 1 :: a.shape.tail := rfl

theorem shape_sumAxis0 (a : NDArr) : (sumAxis0 a).shape = a.shape.tail := rfl

theorem shape_stack3 (a b c : NDArr) : (stack3 a b c).shape = 3 :: a.shape := rfl

theorem shape_app (s : Solver) (f : NDArr) (i : ℕ) : (s.app f i).shape = f.shape := rfl

theorem shape_setSlot00 (a slot : NDArr) : (setSlot00 a slot).shape = a.shape := rfl

theorem foldl_addB_shape (l : List NDArr) (acc : NDArr) (S : List ℕ)
    (hacc : acc.shape = S) (h : ∀ x ∈ l, x.shape = S) :
    (l.foldl addB acc).shape = S := by
  induction l generalizing acc with
  | nil => simpa using hacc
  | cons x xs ih =>
      simp only [List.foldl_cons]
      refine ih (addB acc x) ?_ (fun y hy => h y (List.mem_cons_of_mem _ hy))
      rw [shape_addB, hacc, h x (List.mem_cons_self _ _), bshape_self]

/-- Shape of a Python `sum` of same-shaped arrays (the empty sum is the
scalar 0, so the result shape is `S` provided the list is empty only for
rank-0 `S`). -/
theorem pySum_shape (l : List NDArr) (S : List ℕ)
    (h : ∀ x ∈ l, x.shape = S) (hne : l = [] → S = []) :
    (pySum l).shape = S := by
  cases l with
  | nil => simpa [pySum, pyZero] using (hne rfl).symm
  | cons x xs =>
      refine foldl_addB_shape xs (addB pyZero x) S ?_
        (fun y hy => h y (List.mem_cons_of_mem _ hy))
      rw [shape_addB, h x (List.mem_cons_self _ _)]
      simp [pyZero, bshape_nil_left]

/-! ### Ok-characterizations of the calculus primitives under shape
preconditions -/

theorem ensure_true {p : Prop} [Decidable p] (h : p) (e : PyErr) :
    ensure p e = pure () := by
  simp [ensure, h]

theorem pure_eq_ok {α : Type} (a : α) :
    (pure a : Except PyErr α) = Except.ok a := rfl

theorem bind_ok {α β : Type} (a : α) (f : α → Except PyErr β) :
    (Except.ok a : Except PyErr α) >>= f = f a := rfl

theorem bind_err {α β : Type} (e : PyErr) (f : α → Except PyErr β) :
    (Except.error e : Except PyErr α) >>= f = Except.error e := rfl

theorem map_ok {α β : Type} (f : α → β) (a : α) :
    Except.map f (Except.ok a : Except PyErr α) = Except.ok (f a) := rfl

theorem range_map_arr_nil {f : ℕ → NDArr} {n : ℕ}
    (h : (List.range n).map f = []) : n = 0 := by
  rcases List.map_eq_nil.mp h with h2
  exact List.range_eq_nil.mp h2

theorem div_ok (vec : NDArr) (s : Solver) (S : List ℕ)
    (hv : vec.shape = 3 :: S) (hdx : s.dx.length = S.length) :
    div vec s = Except.ok
      (pySum ((List.range s.dx.length).map (fun i => s.app (indexAt vec i) i))) := by
  have h1 : vec.shape.headD 0 = 3 := by rw [hv]; rfl
  have h2 : s.dx.length = vec.shape.tail.length := by rw [hv]; simpa using hdx
  have h3 : (pySum ((List.range s.dx.length).map
      (fun i => s.app (indexAt vec i) i))).shape = vec.shape.tail := by
    rw [hv, List.tail_cons]
    refine pySum_shape _ S ?_ ?_
    · intro x hx
      obtain ⟨i, _, rfl⟩ := List.mem_map.mp hx
      rw [shape_app, shape_indexAt, hv, List.tail_cons]
    · intro hemp
      have h0 : s.dx.length = 0 := range_map_arr_nil hemp
      rw [h0] at hdx
      exact (List.length_eq_zero.mp hdx.symm)
  simp only [div, ensure_true h1, ensure_true h2, ensure_true h3, pure_bind, pure_eq_ok, bind_ok]

theorem dot_ok (v1 v2 : NDArr) (S : List ℕ)
    (h1 : v1.shape = 3 :: S) (h2 : v2.shape = 3 :: S) :
    dot v1 v2 = Except.ok (sumAxis0 (mulB v1 v2)) := by
  have e1 : v1.shape.headD 0 = 3 := by rw [h1]; rfl
  have e2 : v2.shape.headD 0 = 3 := by rw [h2]; rfl
  have e3 : v1.shape = v2.shape := by rw [h1, h2]
  have e4 : (sumAxis0 (mulB v1 v2)).shape = v1.shape.tail := by
    rw [shape_sumAxis0, shape_mulB, h1, h2, bshape_self]
  simp only [dot, ensure_true e1, ensure_true e2, ensure_true e3,
    ensure_true e4, pure_bind, pure_eq_ok, bind_ok]

theorem vdp_ok (v1 v2 : NDArr) (S : List ℕ)
    (h1 : v1.shape = 3 :: S) (h2 : v2.shape = 3 :: S) :
    vdp v1 v2 = Except.ok (mulB v1 (insertAxis1 v2)) := by
  have e1 : v1.shape.headD 0 = 3 := by rw [h1]; rfl
  have e2 : v2.shape.headD 0 = 3 := by rw [h2]; rfl
  have e3 : v1.shape = v2.shape := by rw [h1, h2]
  have e4 : (mulB v1 (insertAxis1 v2)).shape = 3 :: v1.shape := by
    rw [shape_mulB, h1]
    have : (insertAxis1 v2).shape = 3 :: 1 :: S := by
      simp [insertAxis1, h2]
    rw [this, bshape_vdp]
  simp only [vdp, ensure_true e1, ensure_true e2, ensure_true e3,
    ensure_true e4, pure_bind, pure_eq_ok, bind_ok]

theorem grad_ok (f : NDArr) (s : Solver) (h : s.dx.length = f.shape.length) :
    grad f s = Except.ok (gradCore f s) := by
  simp only [grad, if_pos h, pure_bind, pure_eq_ok, bind_ok]

theorem tensordiv_ok (T : NDArr) (s : Solver) (S : List ℕ)
    (hT : T.shape = 3 :: 3 :: S) (hdx : s.dx.length = S.length) :
    tensordiv T s = Except.ok (stack3
      (pySum ((List.range s.dx.length).map (fun i => s.app (indexPair T i 0) i)))
      (pySum ((List.range s.dx.length).map (fun i => s.app (indexPair T i 1) i)))
      (pySum ((List.range s.dx.length).map (fun i => s.app (indexPair T i 2) i)))) := by
  have e1 : T.shape.take 2 = [3, 3] := by rw [hT]; rfl
  have e2 : s.dx.length = (T.shape.drop 2).length := by rw [hT]; simpa using hdx
  have hcomp : ∀ j, (pySum ((List.range s.dx.length).map
      (fun i => s.app (indexPair T i j) i))).shape = S := by
    intro j
    refine pySum_shape _ S ?_ ?_
    · intro x hx
      obtain ⟨i, _, rfl⟩ := List.mem_map.mp hx
      rw [shape_app, shape_indexPair, hT]
      rfl
    · intro hemp
      have h0 : s.dx.length = 0 := range_map_arr_nil hemp
      rw [h0] at hdx
      exact (List.length_eq_zero.mp hdx.symm)
  have e3 : (stack3
      (pySum ((List.range s.dx.length).map (fun i => s.app (indexPair T i 0) i)))
      (pySum ((List.range s.dx.length).map (fun i => s.app (indexPair T i 1) i)))
      (pySum ((List.range s.dx.length).map (fun i => s.app (indexPair T i 2) i)))).shape
      = T.shape.tail := by
    rw [shape_stack3, hcomp 0, hT, List.tail_cons]
  simp only [tensordiv, ensure_true e1, ensure_true e2, ensure_true e3, pure_bind, pure_eq_ok, bind_ok]

theorem vt_dot_ok (v T : NDArr) (S : List ℕ)
    (hv : v.shape = 3 :: S) (hT : T.shape = 3 :: 3 :: S) :
    vt_dot v T = Except.ok (stack3
      (pySum ((List.range v.shape.tail.length).map
        (fun i => mulB (indexAt v i) (indexPair T i 0))))
      (pySum ((List.range v.shape.tail.length).map
        (fun i => mulB (indexAt v i) (indexPair T i 1))))
      (pySum ((List.range v.shape.tail.length).map
        (fun i => mulB (indexAt v i) (indexPair T i 2))))) := by
  have e1 : v.shape.headD 0 = 3 := by rw [hv]; rfl
  have e2 : T.shape.take 2 = [3, 3] := by rw [hT]; rfl
  have hcomp : ∀ j, (pySum ((List.range v.shape.tail.length).map
      (fun i => mulB (indexAt v i) (indexPair T i j)))).shape = S := by
    intro j
    refine pySum_shape _ S ?_ ?_
    · intro x hx
      obtain ⟨i, _, rfl⟩ := List.mem_map.mp hx
      rw [shape_mulB, shape_indexAt, shape_indexPair, hv, hT, List.tail_cons]
      simp [bshape_self]
    · intro hemp
      have h0 : v.shape.tail.length = 0 := range_map_arr_nil hemp
      rw [hv, List.tail_cons] at h0
      exact (List.length_eq_zero.mp h0)
  have e3 : (stack3
      (pySum ((List.range v.shape.tail.length).map
        (fun i => mulB (indexAt v i) (indexPair T i 0))))
      (pySum ((List.range v.shape.tail.length).map
        (fun i => mulB (indexAt v i) (indexPair T i 1))))
      (pySum ((List.range v.shape.tail.length).map
        (fun i => mulB (indexAt v i) (indexPair T i 2))))).shape = T.shape.tail := by
    rw [shape_stack3, hcomp 0, hT, List.tail_cons]
  simp only [vt_dot, ensure_true e1, ensure_true e2, ensure_true e3, pure_bind, pure_eq_ok, bind_ok]

/-! ### Well-formed simulation states and ok-characterizations of the
RHS evaluators -/

/-- A well-formed simulation state over spatial domain shape `S`: scalar core
fields of shape `S`, vector core fields of shape `3 :: S`, matching domain
shape, and one solver spacing per spatial axis. -/
structure WF (sim : Sim) (S : List ℕ) : Prop where
  hrho : sim.plasma.density.shape = S
  hmom : sim.plasma.momentum.shape = 3 :: S
  hen : sim.plasma.energy.shape = S
  hmag : sim.plasma.magnetic_field.shape = 3 :: S
  hdom : sim.plasma.domain_shape = S
  hdx : sim.solver.dx.length = S.length

theorem velocity_shape (sim : Sim) (S : List ℕ) (h : WF sim S) :
    sim.plasma.velocity.shape = 3 :: S := by
  rw [Plasma.velocity, shape_divB, h.hmom, h.hrho, bshape_cons_self]

theorem pressure_shape (sim : Sim) (S : List ℕ) (h : WF sim S) :
    sim.plasma.pressure.shape = S := by
  rw [Plasma.pressure]
  rw [shape_smulArr, shape_subB, h.hen, shape_smulArr, shape_mulB, h.hrho,
    shape_sumAxis0, shape_mulB, velocity_shape sim S h, bshape_self,
    List.tail_cons, bshape_self, bshape_self]

theorem throw_eq {α : Type} (e : PyErr) :
    (throw e : Except PyErr α) = Except.error e := rfl

theorem resolveOverride_none (stored : NDArr) :
    resolveOverride stored none = pure stored := rfl

theorem pyTruthy_big (a : NDArr) (h : 1 < a.size) :
    pyTruthy a = Except.error truthErr := by
  simp [pyTruthy, if_pos h, throw_eq]

theorem div_payload_shape (vec : NDArr) (s : Solver) (S : List ℕ)
    (hv : vec.shape = 3 :: S) (hdx : s.dx.length = S.length) :
    (pySum ((List.range s.dx.length).map
      (fun i => s.app (indexAt vec i) i))).shape = S := by
  refine pySum_shape _ S ?_ ?_
  · intro x hx
    obtain ⟨i, _, rfl⟩ := List.mem_map.mp hx
    rw [shape_app, shape_indexAt, hv, List.tail_cons]
  · intro hemp
    have h0 : s.dx.length = 0 := range_map_arr_nil hemp
    rw [h0] at hdx
    exact (List.length_eq_zero.mp hdx.symm)

theorem shock_ok (sim : Sim) (S : List ℕ) (a : ℕ)
    (hv : sim.plasma.velocity.shape = 3 :: S)
    (hdx : sim.solver.dx.length = S.length) :
    ∃ r, shock_viscosity sim a = Except.ok r ∧ r.shape = S := by
  simp only [shock_viscosity, div_ok sim.plasma.velocity sim.solver S hv hdx,
    bind_ok, pure_eq_ok]
  refine ⟨_, rfl, ?_⟩
  rw [shape_smulArr, shape_absArr, shape_zeroWherePos]
  exact div_payload_shape sim.plasma.velocity sim.solver S hv hdx

theorem total_ok (sim : Sim) (S : List ℕ) (p : NDArr) (a : ℕ)
    (hv : sim.plasma.velocity.shape = 3 :: S)
    (hdx : sim.solver.dx.length = S.length) :
    ∃ r, total_viscosity sim p a = Except.ok r ∧ r.shape = S := by
  obtain ⟨sv, hsv, hsvs⟩ := shock_ok sim S a hv hdx
  simp only [total_viscosity, hsv, bind_ok, pure_eq_ok]
  refine ⟨_, rfl, ?_⟩
  rw [shape_addB, hsvs]
  simp [scalarArr, bshape_nil_left]

theorem viscous_ok (sim : Sim) (S : List ℕ) (h : WF sim S) :
    ∃ r, viscous_tensor sim = Except.ok r ∧ r.shape = 3 :: 3 :: S := by
  obtain ⟨nu, hnu, hnus⟩ :=
    total_ok sim S (indexAt sim.plasma.velocity 0) 0
      (velocity_shape sim S h) h.hdx
  have hshape : (mulB (setSlot00 (zerosArr (3 :: 3 :: sim.plasma.domain_shape))
      (smulArr 2 (mulB nu (sim.solver.app (indexAt sim.plasma.velocity 0) 0))))
      (smulArr (1 / 2) sim.plasma.density)).shape
      = 3 :: 3 :: sim.plasma.domain_shape := by
    rw [shape_mulB, shape_setSlot00, shape_smulArr, h.hrho]
    have : (zerosArr (3 :: 3 :: sim.plasma.domain_shape)).shape
        = 3 :: 3 :: sim.plasma.domain_shape := rfl
    rw [this, h.hdom, bshape_cons2_self]
  simp only [viscous_tensor, hnu, bind_ok, ensure_true hshape, pure_bind,
    pure_eq_ok]
  refine ⟨_, rfl, ?_⟩
  rw [hshape, h.hdom]

theorem ddt_density_ok (sim : Sim) (S : List ℕ) (t : ℚ) (h : WF sim S) :
    ∃ r, ddt_density sim t none = Except.ok r ∧ r.shape = S := by
  obtain ⟨nu, hnu, hnus⟩ := total_ok sim S sim.plasma.density 0
    (velocity_shape sim S h) h.hdx
  have hvd : (mulB sim.plasma.velocity sim.plasma.density).shape = 3 :: S := by
    rw [shape_mulB, velocity_shape sim S h, h.hrho, bshape_cons_self]
  simp only [ddt_density, resolveOverride_none, pure_bind, hnu, bind_ok,
    div_ok (mulB sim.plasma.velocity sim.plasma.density) sim.solver S hvd h.hdx,
    pure_eq_ok]
  refine ⟨_, rfl, ?_⟩
  rw [shape_subB, shape_mulB, shape_app, shape_app, hnus, h.hrho, bshape_self,
      div_payload_shape (mulB sim.plasma.velocity sim.plasma.density)
        sim.solver S hvd h.hdx, bshape_self]

theorem ddt_momentum_ok (sim : Sim) (S : List ℕ) (t : ℚ) (h : WF sim S) :
    ∃ r, ddt_momentum sim t none = Except.ok r ∧ r.shape = 3 :: S := by
  obtain ⟨vt, hvt, hvts⟩ := viscous_ok sim S h
  have hB : (divSc sim.plasma.magnetic_field sqrtMu0).shape = 3 :: S := by
    rw [shape_divSc, h.hmag]
  have hgrad : sim.solver.dx.length = sim.plasma.pressure.shape.length := by
    rw [pressure_shape sim S h, h.hdx]
  have hsub : (subB (mulB sim.plasma.velocity (insertAxis1 sim.plasma.momentum))
      (mulB (divSc sim.plasma.magnetic_field sqrtMu0)
        (insertAxis1 (divSc sim.plasma.magnetic_field sqrtMu0)))).shape
      = 3 :: 3 :: S := by
    rw [shape_subB, shape_mulB, shape_mulB, velocity_shape sim S h, hB]
    have h1 : (insertAxis1 sim.plasma.momentum).shape = 3 :: 1 :: S := by
      rw [shape_insertAxis1, h.hmom]
      rfl
    have h2 : (insertAxis1 (divSc sim.plasma.magnetic_field sqrtMu0)).shape
        = 3 :: 1 :: S := by
      rw [shape_insertAxis1, hB]
      rfl
    rw [h1, h2, bshape_vdp, bshape_self]
  simp only [ddt_momentum, resolveOverride_none, pure_bind, hvt, bind_ok,
    tensordiv_ok vt sim.solver S hvts h.hdx,
    grad_ok sim.plasma.pressure sim.solver hgrad,
    vdp_ok sim.plasma.velocity sim.plasma.momentum S
      (velocity_shape sim S h) h.hmom,
    vdp_ok (divSc sim.plasma.magnetic_field sqrtMu0)
      (divSc sim.plasma.magnetic_field sqrtMu0) S hB hB,
    tensordiv_ok (subB (mulB sim.plasma.velocity (insertAxis1 sim.plasma.momentum))
      (mulB (divSc sim.plasma.magnetic_field sqrtMu0)
        (insertAxis1 (divSc sim.plasma.magnetic_field sqrtMu0))))
      sim.solver S hsub h.hdx,
    pure_eq_ok]
  refine ⟨_, rfl, ?_⟩
  have hg : (gradCore sim.plasma.pressure sim.solver).shape
      = 3 :: sim.plasma.pressure.shape := rfl
  have hc0 : (pySum ((List.range sim.solver.dx.length).map
      (fun i => sim.solver.app (indexPair vt i 0) i))).shape = S := by
    refine pySum_shape _ S ?_ ?_
    · intro x hx
      obtain ⟨i, _, rfl⟩ := List.mem_map.mp hx
      rw [shape_app, shape_indexPair, hvts]
      rfl
    · intro hemp
      have h0 : sim.solver.dx.length = 0 := range_map_arr_nil hemp
      have h3 := h.hdx
      rw [h0] at h3
      exact (List.length_eq_zero.mp h3.symm)
  have hc1 : (pySum ((List.range sim.solver.dx.length).map
      (fun i => sim.solver.app (indexPair (subB (mulB sim.plasma.velocity
        (insertAxis1 sim.plasma.momentum))
        (mulB (divSc sim.plasma.magnetic_field sqrtMu0)
          (insertAxis1 (divSc sim.plasma.magnetic_field sqrtMu0)))) i 0) i))).shape
      = S := by
    refine pySum_shape _ S ?_ ?_
    · intro x hx
      obtain ⟨i, _, rfl⟩ := List.mem_map.mp hx
      rw [shape_app, shape_indexPair, hsub]
      rfl
    · intro hemp
      have h0 : sim.solver.dx.length = 0 := range_map_arr_nil hemp
      have h3 := h.hdx
      rw [h0] at h3
      exact (List.length_eq_zero.mp h3.symm)
  rw [shape_subB, shape_subB, shape_stack3, shape_stack3, hg,
    pressure_shape sim S h, hc0, hc1, bshape_self, bshape_self]

theorem ddt_energy_ok (sim : Sim) (S : List ℕ) (t : ℚ) (h : WF sim S) :
    ∃ r, ddt_energy sim t none = Except.ok r ∧ r.shape = S := by
  obtain ⟨vt, hvt, hvts⟩ := viscous_ok sim S h
  obtain ⟨nu, hnu, hnus⟩ := total_ok sim S sim.plasma.energy 0
    (velocity_shape sim S h) h.hdx
  have hv := velocity_shape sim S h
  have hB : (divSc sim.plasma.magnetic_field sqrtMu0).shape = 3 :: S := by
    rw [shape_divSc, h.hmag]
  have hvtd : (stack3
      (pySum ((List.range sim.plasma.velocity.shape.tail.length).map
        (fun i => mulB (indexAt sim.plasma.velocity i) (indexPair vt i 0))))
      (pySum ((List.range sim.plasma.velocity.shape.tail.length).map
        (fun i => mulB (indexAt sim.plasma.velocity i) (indexPair vt i 1))))
      (pySum ((List.range sim.plasma.velocity.shape.tail.length).map
        (fun i => mulB (indexAt sim.plasma.velocity i) (indexPair vt i 2))))).shape
      = 3 :: S := by
    rw [shape_stack3]
    have hp : (pySum ((List.range sim.plasma.velocity.shape.tail.length).map
        (fun i => mulB (indexAt sim.plasma.velocity i) (indexPair vt i 0)))).shape
        = S := by
      refine pySum_shape _ S ?_ ?_
      · intro x hx
        obtain ⟨i, _, rfl⟩ := List.mem_map.mp hx
        rw [shape_mulB, shape_indexAt, shape_indexPair, hv, hvts,
          List.tail_cons]
        simp [bshape_self]
      · intro hemp
        have h0 : sim.plasma.velocity.shape.tail.length = 0 :=
          range_map_arr_nil hemp
        rw [hv, List.tail_cons] at h0
        exact List.length_eq_zero.mp h0
    rw [hp]
  have hflux : (addB (subB (mulB sim.plasma.velocity sim.plasma.energy)
      (mulB (divSc sim.plasma.magnetic_field sqrtMu0)
        (sumAxis0 (mulB (divSc sim.plasma.magnetic_field sqrtMu0)
          sim.plasma.velocity))))
      (mulB sim.plasma.velocity sim.plasma.pressure)).shape = 3 :: S := by
    have hbv : (sumAxis0 (mulB (divSc sim.plasma.magnetic_field sqrtMu0)
        sim.plasma.velocity)).shape = S := by
      rw [shape_sumAxis0, shape_mulB, hB, hv, bshape_self, List.tail_cons]
    rw [shape_addB, shape_subB, shape_mulB, shape_mulB, shape_mulB, hv, hB,
      h.hen, hbv, pressure_shape sim S h]
    simp only [bshape_cons_self, bshape_self]
  simp only [ddt_energy, resolveOverride_none, pure_bind, hvt, bind_ok, hnu,
    vt_dot_ok sim.plasma.velocity vt S hv hvts,
    div_ok _ sim.solver S hvtd h.hdx,
    dot_ok (divSc sim.plasma.magnetic_field sqrtMu0) sim.plasma.velocity S
      hB hv,
    div_ok _ sim.solver S hflux h.hdx,
    pure_eq_ok]
  refine ⟨_, rfl, ?_⟩
  rw [shape_subB, shape_addB, shape_mulB, shape_app, shape_app, hnus, h.hen,
    bshape_self,
    div_payload_shape _ sim.solver S hvtd h.hdx, bshape_self,
    div_payload_shape _ sim.solver S hflux h.hdx, bshape_self]

theorem ddt_magfield_ok (sim : Sim) (S : List ℕ) (t : ℚ) (h : WF sim S) :
    ∃ r, ddt_magfield sim t none = Except.ok r ∧ r.shape = 3 :: S := by
  have hv := velocity_shape sim S h
  have hB : (divSc sim.plasma.magnetic_field sqrtMu0).shape = 3 :: S := by
    rw [shape_divSc, h.hmag]
  have hsub : (subB (mulB sim.plasma.velocity
      (insertAxis1 (divSc sim.plasma.magnetic_field sqrtMu0)))
      (mulB (divSc sim.plasma.magnetic_field sqrtMu0)
        (insertAxis1 sim.plasma.velocity))).shape = 3 :: 3 :: S := by
    have h1 : (insertAxis1 (divSc sim.plasma.magnetic_field sqrtMu0)).shape
        = 3 :: 1 :: S := by
      rw [shape_insertAxis1, hB]
      rfl
    have h2 : (insertAxis1 sim.plasma.velocity).shape = 3 :: 1 :: S := by
      rw [shape_insertAxis1, hv]
      rfl
    rw [shape_subB, shape_mulB, shape_mulB, hv, hB, h1, h2]
    simp only [bshape_vdp, bshape_self]
  simp only [ddt_magfield, pure_bind,
    vdp_ok sim.plasma.velocity (divSc sim.plasma.magnetic_field sqrtMu0) S
      hv hB,
    vdp_ok (divSc sim.plasma.magnetic_field sqrtMu0) sim.plasma.velocity S
      hB hv,
    bind_ok,
    tensordiv_ok _ sim.solver S hsub h.hdx,
    pure_eq_ok]
  refine ⟨_, rfl, ?_⟩
  rw [shape_smulArr, shape_negArr, shape_stack3]
  have hp : (pySum ((List.range sim.solver.dx.length).map
      (fun i => sim.solver.app (indexPair (subB (mulB sim.plasma.velocity
        (insertAxis1 (divSc sim.plasma.magnetic_field sqrtMu0)))
        (mulB (divSc sim.plasma.magnetic_field sqrtMu0)
          (insertAxis1 sim.plasma.velocity))) i 0) i))).shape = S := by
    refine pySum_shape _ S ?_ ?_
    · intro x hx
      obtain ⟨i, _, rfl⟩ := List.mem_map.mp hx
      rw [shape_app, shape_indexPair, hsub]
      rfl
    · intro hemp
      have h0 : sim.solver.dx.length = 0 := range_map_arr_nil hemp
      have h3 := h.hdx
      rw [h0] at h3
      exact (List.length_eq_zero.mp h3.symm)
  rw [hp]

/-- Stage-1 packaging: all four RHS evaluations succeed on a well-formed
state with no overrides, with the expected core shapes. -/
theorem evalAll_ok_none (sim : Sim) (S : List ℕ) (t : ℚ) (h : WF sim S) :
    ∃ r, evalAll sim t none = Except.ok r ∧ r.density.shape = S ∧
      r.momentum.shape = 3 :: S ∧ r.energy.shape = S ∧
      r.magfield.shape = 3 :: S := by
  obtain ⟨rd, hrd, hrds⟩ := ddt_density_ok sim S t h
  obtain ⟨rm, hrm, hrms⟩ := ddt_momentum_ok sim S t h
  obtain ⟨re, hre, hres⟩ := ddt_energy_ok sim S t h
  obtain ⟨rb, hrb, hrbs⟩ := ddt_magfield_ok sim S t h
  refine ⟨⟨rd, rm, re, rb⟩, ?_, hrds, hrms, hres, hrbs⟩
  simp only [evalAll, Option.map_none', hrd, hrm, hre, hrb, bind_ok,
    pure_eq_ok]

/-- Any RK4 stage called with a multi-element override errors out at the
truthiness check of the density equation before touching the state. -/
theorem evalAll_some_err (sim : Sim) (t : ℚ) (c : Core)
    (h : 1 < c.density.size) :
    evalAll sim t (some c) = Except.error truthErr := by
  have hd : ddt_density sim t (some c.density) = Except.error truthErr := by
    simp only [ddt_density, resolveOverride, pyTruthy_big c.density h,
      bind_err]
  simp only [evalAll, Option.map_some', hd, bind_err]

/-- The master crash theorem: on every well-formed simulation state whose
core fields have more than one element, `time_stepper` completes RK4 stage 1
and then raises ValueError at stage 2, when `if not density:` evaluates the
truth value of the multi-element working array. -/
theorem time_stepper_raises (sim : Sim) (S : List ℕ) (hWF : WF sim S)
    (hsz : 1 < S.foldl (· * ·) 1) :
    time_stepper sim = Except.error truthErr := by
  obtain ⟨r1, hr1, hs1, _, _, _⟩ := evalAll_ok_none sim S sim.current_time hWF
  have hw1 : 1 < (Core.map2 addB sim.plasma.core
      (Core.divS (Core.smul sim.dt r1) 2)).density.size := by
    simp only [Core.map2, Core.divS, Core.smul, Plasma.core]
    rw [NDArr.size, shape_addB, hWF.hrho, shape_divSc, shape_smulArr, hs1,
      bshape_self]
    exact hsz
  have h2 := evalAll_some_err
    (sim.withCore (Core.map2 addB sim.plasma.core
      (Core.divS (Core.smul sim.dt r1) 2)))
    (sim.current_time + sim.dt / 2)
    (Core.map2 addB sim.plasma.core (Core.divS (Core.smul sim.dt r1) 2))
    hw1
  simp only [time_stepper, hr1, bind_ok, h2, bind_err]

/-! ### Concrete inputs for the claim theorems -/

/-- v1 = (1, 0, 0) on a single-cell 1D grid. -/
def c1v1 : NDArr := ⟨[3, 1], fun idx => if idx.headD 0 = 0 then 1 else 0⟩

/-- v2 = (0, 1, 0) on a single-cell 1D grid. -/
def c1v2 : NDArr := ⟨[3, 1], fun idx => if idx.headD 0 = 1 then 1 else 0⟩

/-- v = (0, 1, 0) on a single-cell 1D grid. -/
def c2v : NDArr := ⟨[3, 1], fun idx => if idx.headD 0 = 1 then 1 else 0⟩

/-- Tensor with T[1, 0] = 1 and all other entries 0, single-cell 1D grid. -/
def c2T : NDArr := ⟨[3, 3, 1], fun idx => if idx.take 2 = [1, 0] then 1 else 0⟩

/-- A 10-element array of ones, as an override argument. -/
def tenOnes : NDArr := constArr [10] 1

/-- A 1D scalar field of 2 cells for the grad failing input. -/
def c7f : NDArr := constArr [2] 3

/-- A solver carrying two grid spacings (a 2D solver), mismatching `c7f`. -/
def c7solver : Solver := ⟨[1, 1], fun _ _ _ => 0⟩

/-- A trivial concrete instantiation of the black-box solver values. -/
def dval0 : NDArr → ℕ → List ℕ → ℚ := fun _ _ _ => 0

/-- A 5-cell 1D plasma with nonuniform-looking constants. -/
def plasmaC4 : Plasma :=
  ⟨constArr [5] 2, constArr [3, 5] 1, constArr [5] 3, constArr [3, 5] 0,
    [5], 5 / 3, 1, 1⟩

/-- Concrete simulation state for the C4 witness. -/
def simC4 : Sim := ⟨1 / 100, 0, 7, plasmaC4, ⟨[1], dval0⟩⟩

/-- A 4-cell 1D plasma. -/
def plasmaC5 : Plasma :=
  ⟨constArr [4] 1, constArr [3, 4] 0, constArr [4] 2, constArr [3, 4] 0,
    [4], 5 / 3, 0, 0⟩

/-- Concrete simulation state for the C5 witness. -/
def simC5 : Sim := ⟨1 / 10, 0, 0, plasmaC5, ⟨[1], dval0⟩⟩

/-- The spec §8 concrete scenario: 1D grid of 10 cells, spacing 1, uniform
density 1, zero momentum (velocity), zero energy, zero magnetic field. -/
def plasmaC8 : Plasma :=
  ⟨constArr [10] 1, constArr [3, 10] 0, constArr [10] 0, constArr [3, 10] 0,
    [10], 5 / 3, 0, 0⟩

/-- The spec §8 scenario simulation with dt = 1e-4, over an arbitrary
black-box solver value function. -/
def simC8 (dval : NDArr → ℕ → List ℕ → ℚ) : Sim :=
  ⟨1 / 10000, 0, 0, plasmaC8, ⟨[1], dval⟩⟩

/-! ### Claim theorems -/

/-- C1: the claim states vdp(v1, v2)[i, j, ...] = v1[i, ...] * v2[j, ...]
pointwise.  At v1 = (1,0,0), v2 = (0,1,0) on a single-cell 1D grid the claim
predicts entry [0, 1] = v1[0] * v2[1] = 1, but the source computes the
transposed tensor (`vec1 * vec2.reshape(3, 1, ...)` broadcasts to
v1[j] * v2[i]): the returned entry [0, 1] is 0 and entry [1, 0] is 1. -/
theorem vdp_transposes_indices :
    (vdp c1v1 c1v2).map (fun T => T.data [0, 1, 0]) = Except.ok 0 ∧
    (vdp c1v1 c1v2).map (fun T => T.data [1, 0, 0]) = Except.ok 1 ∧
    c1v1.data [0, 0] * c1v2.data [1, 0] = 1 := by
  refine ⟨?_, ?_, ?_⟩
  · rw [vdp_ok c1v1 c1v2 [1] rfl rfl, map_ok]
    norm_num [mulB, zipWithB, NDArr.bget, fixIdx, c1v1, c1v2, insertAxis1]
  · rw [vdp_ok c1v1 c1v2 [1] rfl rfl, map_ok]
    norm_num [mulB, zipWithB, NDArr.bget, fixIdx, c1v1, c1v2, insertAxis1]
  · norm_num [c1v1, c1v2]

/-- C2: the claim states vt_dot(v, T)[j] = sum over i = 0, 1, 2 of
v[i] * T[i, j] for every domain dimensionality.  On a 1D domain the source
sums only over i in range(1): with v = (0,1,0) and T[1,0] = 1 the claimed
contraction is 1 but the returned component 0 is 0. -/
theorem vt_dot_truncates_contraction :
    (vt_dot c2v c2T).map (fun d => d.data [0, 0]) = Except.ok 0 ∧
    ((List.range 3).map (fun i => c2v.data [i, 0] * c2T.data [i, 0, 0])).sum
      = 1 := by
  constructor
  · rw [vt_dot_ok c2v c2T [1] rfl rfl, map_ok]
    norm_num [stack3, pySum, pyZero, addB, zipWithB, NDArr.bget, fixIdx,
      mulB, indexAt, indexPair, c2v, c2T, List.range_succ]
  · norm_num [c2v, c2T, List.range_succ]

/-- C3: each RHS evaluator, given a well-formed multi-element override field,
raises ValueError while evaluating `if not field:` instead of computing its
time derivative from the override: the claim that the call returns normally
fails for every simulation state and stage time. -/
theorem ddt_override_raises_valueerror :
    ∀ (sim : Sim) (t : ℚ),
      ddt_density sim t (some tenOnes) = Except.error truthErr ∧
      ddt_momentum sim t (some tenOnes) = Except.error truthErr ∧
      ddt_energy sim t (some tenOnes) = Except.error truthErr ∧
      ddt_magfield sim t (some tenOnes) = Except.error truthErr := by
  intro sim t
  have hbig : 1 < tenOnes.size := by decide
  refine ⟨?_, ?_, ?_, ?_⟩
  · simp only [ddt_density, resolveOverride, pyTruthy_big tenOnes hbig,
      bind_err]
  · simp only [ddt_momentum, resolveOverride, pyTruthy_big tenOnes hbig,
      bind_err]
  · simp only [ddt_energy, resolveOverride, pyTruthy_big tenOnes hbig,
      bind_err]
  · simp only [ddt_magfield, pyTruthy_big tenOnes hbig, bind_err]

/-- C4: for every well-formed simulation state whose core fields hold more
than one element, `time_stepper` does not complete: it raises ValueError at
stage 2 (truth value of a multi-element array), so `current_iteration` and
`current_time` are never advanced. -/
theorem time_stepper_never_completes (sim : Sim) (S : List ℕ)
    (hWF : WF sim S) (hsz : 1 < S.foldl (· * ·) 1) :
    time_stepper sim = Except.error truthErr ∧
    ∀ s, time_stepper sim ≠ Except.ok s := by
  have h := time_stepper_raises sim S hWF hsz
  exact ⟨h, fun s hok => by rw [h] at hok; exact Except.noConfusion hok⟩

/-- C4 witness: the failure is exhibited at the concrete 5-cell state. -/
theorem time_stepper_never_completes_witness :
    time_stepper simC4 = Except.error truthErr :=
  (time_stepper_never_completes simC4 [5] ⟨rfl, rfl, rfl, rfl, rfl, rfl⟩
    (by decide)).1

/-- C5: no invocation of `time_stepper` on a well-formed multi-element state
reaches the RK4 commit: the call raises ValueError at stage 2, so no
post-state `f0 + (k1 + 2 k2 + 2 k3 + k4)/6` is ever produced. -/
theorem rk4_commit_unreachable (sim : Sim) (S : List ℕ)
    (hWF : WF sim S) (hsz : 1 < S.foldl (· * ·) 1) :
    ¬ ∃ s, time_stepper sim = Except.ok s := by
  rintro ⟨s, hs⟩
  rw [time_stepper_raises sim S hWF hsz] at hs
  exact Except.noConfusion hs

/-- C5 witness: exhibited at the concrete 4-cell state. -/
theorem rk4_commit_unreachable_witness :
    ¬ ∃ s, time_stepper simC5 = Except.ok s :=
  rk4_commit_unreachable simC5 [4] ⟨rfl, rfl, rfl, rfl, rfl, rfl⟩ (by decide)

/-- C8: on the spec §8 scenario (1D grid of 10 cells, dx = 1, uniform density
1, zero velocity, energy and magnetic field, dt = 1e-4) a single
`time_stepper` call does not return with the fields unchanged: for every
solver instantiation it raises ValueError at RK4 stage 2. -/
theorem uniform_steady_state_step_raises :
    ∀ dval, time_stepper (simC8 dval) = Except.error truthErr := by
  intro dval
  exact time_stepper_raises (simC8 dval) [10]
    ⟨rfl, rfl, rfl, rfl, rfl, rfl⟩ (by decide)

/-- C7: the claim states each primitive raises a descriptive shape-mismatch
failure on bad input, in particular grad when the spacing count differs from
the field dimensionality.  Instead, grad's failed assert evaluates the
undefined name `h` while formatting its message, raising NameError — which is
not an AssertionError carrying a shape-mismatch message. -/
theorem grad_raises_nameerror_not_shape_error :
    grad c7f c7solver = Except.error (PyErr.nameError "name h is not defined")
    ∧ ∀ msg, (PyErr.nameError "name h is not defined")
        ≠ PyErr.assertionError msg := by
  constructor
  · rfl
  · intro msg h
    exact PyErr.noConfusion h

/-- C10: `hyperdiff_viscosity` ignores its `param` argument in the current
(refinement-disabled) model: for a fixed state and axis it returns the same
value for any two param fields — a two-run noninterference property. -/
theorem hyperdiff_viscosity_param_noninterference
    (sim : Sim) (p1 p2 : NDArr) (a : ℕ) :
    hyperdiff_viscosity sim p1 a = hyperdiff_viscosity sim p2 a := rfl

/-! ### A store model of the RK4 staging discipline (time_stepper lines
77-109).  Mutable numpy arrays are cells of a heap addressed by references;
`var.copy()` allocates a fresh cell and `np.add(..., out=f)` writes through a
reference.  The four RHS evaluators are abstracted as pure functions of the
stage time and the four core values, which matches the source: they read the
plasma state and allocate fresh result arrays, never writing through the core
references (their concrete evaluation raises, see the C3/C4 theorems). -/

/-- A heap of array objects. -/
structure ArrStore where
  size : ℕ
  mem : ℕ → NDArr

/-- Read the array object at reference `r`. -/
def ArrStore.get (σ : ArrStore) (r : ℕ) : NDArr := σ.mem r

/-- Write the array object at reference `r` in place. -/
def ArrStore.set (σ : ArrStore) (r : ℕ) (v : NDArr) : ArrStore :=
  ⟨σ.size, fun x => if x = r then v else σ.mem x⟩

/-- Allocate a fresh array object (`var.copy()`). -/
def ArrStore.alloc (σ : ArrStore) (v : NDArr) : ArrStore :=
  ⟨σ.size + 1, fun x => if x = σ.size then v else σ.mem x⟩

theorem get_set_self (σ : ArrStore) (r : ℕ) (v : NDArr) :
    (σ.set r v).get r = v := by
  simp [ArrStore.get, ArrStore.set]

theorem get_set_ne (σ : ArrStore) (r : ℕ) (v : NDArr) (r' : ℕ) (h : r' ≠ r) :
    (σ.set r v).get r' = σ.get r' := by
  simp [ArrStore.get, ArrStore.set, h]

theorem get_alloc_self (σ : ArrStore) (v : NDArr) :
    (σ.alloc v).get σ.size = v := by
  simp [ArrStore.get, ArrStore.alloc]

theorem get_alloc_ne (σ : ArrStore) (v : NDArr) (r : ℕ) (h : r ≠ σ.size) :
    (σ.alloc v).get r = σ.get r := by
  simp [ArrStore.get, ArrStore.alloc, h]

theorem size_alloc (σ : ArrStore) (v : NDArr) : (σ.alloc v).size = σ.size + 1 :=
  rfl

/-- The snapshot loop `orig_variables = [var.copy() for var in
plasma.core_variables]`: allocate copies of the four core arrays. -/
def snap4 (σ : ArrStore) (reg : Fin 4 → ℕ) : ArrStore :=
  let s1 := σ.alloc (σ.get (reg 0))
  let s2 := s1.alloc (s1.get (reg 1))
  let s3 := s2.alloc (s2.get (reg 2))
  s3.alloc (s3.get (reg 3))

theorem snap4_size (σ : ArrStore) (reg : Fin 4 → ℕ) :
    (snap4 σ reg).size = σ.size + 4 := rfl

theorem snap4_get_low (σ : ArrStore) (reg : Fin 4 → ℕ) (r : ℕ)
    (h : r < σ.size) : (snap4 σ reg).get r = σ.get r := by
  simp only [snap4]
  rw [get_alloc_ne _ _ _ (by simp only [size_alloc]; omega),
    get_alloc_ne _ _ _ (by simp only [size_alloc]; omega),
    get_alloc_ne _ _ _ (by simp only [size_alloc]; omega),
    get_alloc_ne _ _ _ (by omega)]

theorem snap4_get_orig (σ : ArrStore) (reg : Fin 4 → ℕ)
    (hb : ∀ i, reg i < σ.size) (i : Fin 4) :
    (snap4 σ reg).get (σ.size + i.val) = σ.get (reg i) := by
  fin_cases i
  · show (snap4 σ reg).get (σ.size + 0) = σ.get (reg 0)
    simp only [snap4]
    rw [get_alloc_ne _ _ _ (by simp only [size_alloc]; omega),
      get_alloc_ne _ _ _ (by simp only [size_alloc]; omega),
      get_alloc_ne _ _ _ (by simp only [size_alloc]; omega),
      Nat.add_zero, get_alloc_self]
  · show (snap4 σ reg).get (σ.size + 1) = σ.get (reg 1)
    simp only [snap4]
    rw [get_alloc_ne _ _ _ (by simp only [size_alloc]; omega),
      get_alloc_ne _ _ _ (by simp only [size_alloc]; omega)]
    have h1 := get_alloc_self (σ.alloc (σ.get (reg 0)))
      ((σ.alloc (σ.get (reg 0))).get (reg 1))
    simp only [size_alloc] at h1
    rw [h1, get_alloc_ne _ _ _ (by have := hb 1; omega)]
  · show (snap4 σ reg).get (σ.size + 2) = σ.get (reg 2)
    simp only [snap4]
    rw [get_alloc_ne _ _ _ (by simp only [size_alloc]; omega)]
    have h1 := get_alloc_self ((σ.alloc (σ.get (reg 0))).alloc
      ((σ.alloc (σ.get (reg 0))).get (reg 1)))
      (((σ.alloc (σ.get (reg 0))).alloc
        ((σ.alloc (σ.get (reg 0))).get (reg 1))).get (reg 2))
    simp only [size_alloc] at h1
    rw [show σ.size + 2 = σ.size + 1 + 1 from by omega, h1,
      get_alloc_ne _ _ _ (by have := hb 2; simp only [size_alloc]; omega),
      get_alloc_ne _ _ _ (by have := hb 2; omega)]
  · show (snap4 σ reg).get (σ.size + 3) = σ.get (reg 3)
    simp only [snap4]
    have h1 := get_alloc_self (((σ.alloc (σ.get (reg 0))).alloc
      ((σ.alloc (σ.get (reg 0))).get (reg 1))).alloc
        (((σ.alloc (σ.get (reg 0))).alloc
          ((σ.alloc (σ.get (reg 0))).get (reg 1))).get (reg 2)))
      ((((σ.alloc (σ.get (reg 0))).alloc
        ((σ.alloc (σ.get (reg 0))).get (reg 1))).alloc
          (((σ.alloc (σ.get (reg 0))).alloc
            ((σ.alloc (σ.get (reg 0))).get (reg 1))).get (reg 2))).get (reg 3))
    simp only [size_alloc] at h1
    rw [show σ.size + 3 = σ.size + 1 + 1 + 1 from by omega, h1,
      get_alloc_ne _ _ _ (by have := hb 3; simp only [size_alloc]; omega),
      get_alloc_ne _ _ _ (by have := hb 3; simp only [size_alloc]; omega),
      get_alloc_ne _ _ _ (by have := hb 3; omega)]

/-- One in-place update loop over the four core variables, sequential, each
write reading the current store. -/
def upd4 (σ : ArrStore) (reg : Fin 4 → ℕ) (f : ArrStore → Fin 4 → NDArr) :
    ArrStore :=
  let sa := σ.set (reg 0) (f σ 0)
  let sb := sa.set (reg 1) (f sa 1)
  let sc := sb.set (reg 2) (f sb 2)
  sc.set (reg 3) (f sc 3)

theorem upd4_get_out (σ : ArrStore) (reg : Fin 4 → ℕ)
    (f : ArrStore → Fin 4 → NDArr) (r : ℕ) (h : ∀ i, r ≠ reg i) :
    (upd4 σ reg f).get r = σ.get r := by
  simp only [upd4]
  rw [get_set_ne _ _ _ _ (h 3), get_set_ne _ _ _ _ (h 2),
    get_set_ne _ _ _ _ (h 1), get_set_ne _ _ _ _ (h 0)]

/-- Reading a core cell after an update loop yields the value written for
that variable, computed against a store that differs from the base store only
at other core cells. -/
theorem upd4_get_reg (σ : ArrStore) (reg : Fin 4 → ℕ)
    (f : ArrStore → Fin 4 → NDArr)
    (hinj : ∀ i j, reg i = reg j → i = j) (i : Fin 4) :
    ∃ σc, (upd4 σ reg f).get (reg i) = f σc i ∧
      σc.get (reg i) = σ.get (reg i) ∧
      ∀ r, (∀ j, r ≠ reg j) → σc.get r = σ.get r := by
  have hne : ∀ (a b : Fin 4), a ≠ b → reg a ≠ reg b :=
    fun a b hab h => hab (hinj a b h)
  fin_cases i
  · show ∃ σc, (upd4 σ reg f).get (reg 0) = f σc 0 ∧
      σc.get (reg 0) = σ.get (reg 0) ∧
      ∀ r, (∀ j, r ≠ reg j) → σc.get r = σ.get r
    refine ⟨σ, ?_, rfl, fun r hr => rfl⟩
    simp only [upd4]
    rw [get_set_ne _ _ _ _ (hne 0 3 (by decide)),
      get_set_ne _ _ _ _ (hne 0 2 (by decide)),
      get_set_ne _ _ _ _ (hne 0 1 (by decide)), get_set_self]
  · show ∃ σc, (upd4 σ reg f).get (reg 1) = f σc 1 ∧
      σc.get (reg 1) = σ.get (reg 1) ∧
      ∀ r, (∀ j, r ≠ reg j) → σc.get r = σ.get r
    refine ⟨σ.set (reg 0) (f σ 0), ?_, ?_, ?_⟩
    · simp only [upd4]
      rw [get_set_ne _ _ _ _ (hne 1 3 (by decide)),
        get_set_ne _ _ _ _ (hne 1 2 (by decide)), get_set_self]
    · exact get_set_ne _ _ _ _ (hne 1 0 (by decide))
    · intro r hr
      exact get_set_ne _ _ _ _ (hr 0)
  · show ∃ σc, (upd4 σ reg f).get (reg 2) = f σc 2 ∧
      σc.get (reg 2) = σ.get (reg 2) ∧
      ∀ r, (∀ j, r ≠ reg j) → σc.get r = σ.get r
    refine ⟨(σ.set (reg 0) (f σ 0)).set (reg 1) (f (σ.set (reg 0) (f σ 0)) 1),
      ?_, ?_, ?_⟩
    · simp only [upd4]
      rw [get_set_ne _ _ _ _ (hne 2 3 (by decide)), get_set_self]
    · rw [get_set_ne _ _ _ _ (hne 2 1 (by decide)),
        get_set_ne _ _ _ _ (hne 2 0 (by decide))]
    · intro r hr
      rw [get_set_ne _ _ _ _ (hr 1), get_set_ne _ _ _ _ (hr 0)]
  · show ∃ σc, (upd4 σ reg f).get (reg 3) = f σc 3 ∧
      σc.get (reg 3) = σ.get (reg 3) ∧
      ∀ r, (∀ j, r ≠ reg j) → σc.get r = σ.get r
    refine ⟨((σ.set (reg 0) (f σ 0)).set (reg 1) (f (σ.set (reg 0) (f σ 0)) 1)).set
      (reg 2) (f ((σ.set (reg 0) (f σ 0)).set (reg 1)
        (f (σ.set (reg 0) (f σ 0)) 1)) 2), ?_, ?_, ?_⟩
    · simp only [upd4]
      rw [get_set_self]
    · rw [get_set_ne _ _ _ _ (hne 3 2 (by decide)),
        get_set_ne _ _ _ _ (hne 3 1 (by decide)),
        get_set_ne _ _ _ _ (hne 3 0 (by decide))]
    · intro r hr
      rw [get_set_ne _ _ _ _ (hr 2), get_set_ne _ _ _ _ (hr 1),
        get_set_ne _ _ _ _ (hr 0)]

/-- Stage-1 k values: `k1 = eq(t) * dt`, all four equations evaluated
against the post-snapshot store. -/
def rk1 (eqs : Fin 4 → ℚ → (Fin 4 → NDArr) → NDArr) (dt t : ℚ)
    (σ : ArrStore) (reg : Fin 4 → ℕ) : Fin 4 → NDArr :=
  fun i => smulArr dt (eqs i t (fun j => (snap4 σ reg).get (reg j)))

/-- Stage-1 write loop `np.add(f, k1/2, out=f)`. -/
def write1 (eqs : Fin 4 → ℚ → (Fin 4 → NDArr) → NDArr) (dt t : ℚ)
    (σ : ArrStore) (reg : Fin 4 → ℕ) : ArrStore → Fin 4 → NDArr :=
  fun σc i => addB (σc.get (reg i)) (divSc (rk1 eqs dt t σ reg i) 2)

/-- Store after stage 1. -/
def st1 (eqs : Fin 4 → ℚ → (Fin 4 → NDArr) → NDArr) (dt t : ℚ)
    (σ : ArrStore) (reg : Fin 4 → ℕ) : ArrStore :=
  upd4 (snap4 σ reg) reg (write1 eqs dt t σ reg)

/-- Stage-2 k values: `k2 = eq(t + dt/2, f) * dt` against the stage-1 store. -/
def rk2 (eqs : Fin 4 → ℚ → (Fin 4 → NDArr) → NDArr) (dt t : ℚ)
    (σ : ArrStore) (reg : Fin 4 → ℕ) : Fin 4 → NDArr :=
  fun i => smulArr dt (eqs i (t + dt / 2) (fun j => (st1 eqs dt t σ reg).get (reg j)))

/-- Stage-2 write loop `np.add(f0, k2/2, out=f)`: each write reads the
snapshot cell of its variable from the current store. -/
def write2 (eqs : Fin 4 → ℚ → (Fin 4 → NDArr) → NDArr) (dt t : ℚ)
    (σ : ArrStore) (reg : Fin 4 → ℕ) : ArrStore → Fin 4 → NDArr :=
  fun σc i => addB (σc.get (σ.size + i.val)) (divSc (rk2 eqs dt t σ reg i) 2)

/-- Store after stage 2. -/
def st2 (eqs : Fin 4 → ℚ → (Fin 4 → NDArr) → NDArr) (dt t : ℚ)
    (σ : ArrStore) (reg : Fin 4 → ℕ) : ArrStore :=
  upd4 (st1 eqs dt t σ reg) reg (write2 eqs dt t σ reg)

/-- Stage-3 k values against the stage-2 store. -/
def rk3 (eqs : Fin 4 → ℚ → (Fin 4 → NDArr) → NDArr) (dt t : ℚ)
    (σ : ArrStore) (reg : Fin 4 → ℕ) : Fin 4 → NDArr :=
  fun i => smulArr dt (eqs i (t + dt / 2) (fun j => (st2 eqs dt t σ reg).get (reg j)))

/-- Stage-3 write loop `np.add(f0, k3, out=f)`. -/
def write3 (eqs : Fin 4 → ℚ → (Fin 4 → NDArr) → NDArr) (dt t : ℚ)
    (σ : ArrStore) (reg : Fin 4 → ℕ) : ArrStore → Fin 4 → NDArr :=
  fun σc i => addB (σc.get (σ.size + i.val)) (rk3 eqs dt t σ reg i)

/-- Store after stage 3. -/
def st3 (eqs : Fin 4 → ℚ → (Fin 4 → NDArr) → NDArr) (dt t : ℚ)
    (σ : ArrStore) (reg : Fin 4 → ℕ) : ArrStore :=
  upd4 (st2 eqs dt t σ reg) reg (write3 eqs dt t σ reg)

/-- Stage-4 k values against the stage-3 store. -/
def rk4v (eqs : Fin 4 → ℚ → (Fin 4 → NDArr) → NDArr) (dt t : ℚ)
    (σ : ArrStore) (reg : Fin 4 → ℕ) : Fin 4 → NDArr :=
  fun i => smulArr dt (eqs i (t + dt) (fun j => (st3 eqs dt t σ reg).get (reg j)))

/-- The accumulated derivative `k1 + 2 k2 + 2 k3 + k4` (derivs in the
source). -/
def rkDerivs (eqs : Fin 4 → ℚ → (Fin 4 → NDArr) → NDArr) (dt t : ℚ)
    (σ : ArrStore) (reg : Fin 4 → ℕ) : Fin 4 → NDArr :=
  fun i => addB (addB (addB (rk1 eqs dt t σ reg i)
    (smulArr 2 (rk2 eqs dt t σ reg i)))
    (smulArr 2 (rk3 eqs dt t σ reg i))) (rk4v eqs dt t σ reg i)

/-- The commit loop `np.add(f0, derivs/6, out=f)`. -/
def writeCommit (eqs : Fin 4 → ℚ → (Fin 4 → NDArr) → NDArr) (dt t : ℚ)
    (σ : ArrStore) (reg : Fin 4 → ℕ) : ArrStore → Fin 4 → NDArr :=
  fun σc i => addB (σc.get (σ.size + i.val)) (divSc (rkDerivs eqs dt t σ reg i) 6)

/-- Store after the commit: the end of one time_stepper cycle. -/
def stFinal (eqs : Fin 4 → ℚ → (Fin 4 → NDArr) → NDArr) (dt t : ℚ)
    (σ : ArrStore) (reg : Fin 4 → ℕ) : ArrStore :=
  upd4 (st3 eqs dt t σ reg) reg (writeCommit eqs dt t σ reg)

/-- C6: across one time_stepper cycle the snapshot `orig` is never mutated:
the snapshot cells still hold the pre-step core values after the commit (a);
every stage write targets only the four working core cells (b); and the
stage-2, stage-3 and commit updates each rebuild the working state from the
unmodified original values f0 (c, d, e) — the commit being
f0 + (k1 + 2 k2 + 2 k3 + k4)/6.  Hypotheses: the core references are live
heap cells and the four core arrays are distinct objects. -/
theorem rk4_orig_snapshot_immutable
    (eqs : Fin 4 → ℚ → (Fin 4 → NDArr) → NDArr) (dt t : ℚ)
    (σ : ArrStore) (reg : Fin 4 → ℕ)
    (hb : ∀ i, reg i < σ.size)
    (hinj : ∀ i j, reg i = reg j → i = j) :
    (∀ i, (stFinal eqs dt t σ reg).get (σ.size + i.val) = σ.get (reg i)) ∧
    (∀ r, (∀ i, r ≠ reg i) →
      (stFinal eqs dt t σ reg).get r = (snap4 σ reg).get r) ∧
    (∀ i, (st2 eqs dt t σ reg).get (reg i)
        = addB (σ.get (reg i)) (divSc (rk2 eqs dt t σ reg i) 2)) ∧
    (∀ i, (st3 eqs dt t σ reg).get (reg i)
        = addB (σ.get (reg i)) (rk3 eqs dt t σ reg i)) ∧
    (∀ i, (stFinal eqs dt t σ reg).get (reg i)
        = addB (σ.get (reg i)) (divSc (rkDerivs eqs dt t σ reg i) 6)) := by
  have horb : ∀ (i j : Fin 4), σ.size + i.val ≠ reg j := fun i j => by
    have := hb j
    omega
  have hst1 : ∀ i : Fin 4,
      (st1 eqs dt t σ reg).get (σ.size + i.val) = σ.get (reg i) := by
    intro i
    simp only [st1]
    rw [upd4_get_out _ _ _ _ (fun j => horb i j)]
    exact snap4_get_orig σ reg hb i
  have hst2 : ∀ i : Fin 4,
      (st2 eqs dt t σ reg).get (σ.size + i.val) = σ.get (reg i) := by
    intro i
    simp only [st2]
    rw [upd4_get_out _ _ _ _ (fun j => horb i j)]
    exact hst1 i
  have hst3 : ∀ i : Fin 4,
      (st3 eqs dt t σ reg).get (σ.size + i.val) = σ.get (reg i) := by
    intro i
    simp only [st3]
    rw [upd4_get_out _ _ _ _ (fun j => horb i j)]
    exact hst2 i
  refine ⟨?_, ?_, ?_, ?_, ?_⟩
  · intro i
    simp only [stFinal]
    rw [upd4_get_out _ _ _ _ (fun j => horb i j)]
    exact hst3 i
  · intro r hr
    simp only [stFinal, st3, st2, st1]
    rw [upd4_get_out _ _ _ _ hr, upd4_get_out _ _ _ _ hr,
      upd4_get_out _ _ _ _ hr, upd4_get_out _ _ _ _ hr]
  · intro i
    simp only [st2]
    obtain ⟨σc, hval, hown, hframe⟩ := upd4_get_reg (st1 eqs dt t σ reg) reg
      (write2 eqs dt t σ reg) hinj i
    rw [hval]
    simp only [write2]
    rw [hframe _ (fun j => horb i j), hst1 i]
  · intro i
    simp only [st3]
    obtain ⟨σc, hval, hown, hframe⟩ := upd4_get_reg (st2 eqs dt t σ reg) reg
      (write3 eqs dt t σ reg) hinj i
    rw [hval]
    simp only [write3]
    rw [hframe _ (fun j => horb i j), hst2 i]
  · intro i
    simp only [stFinal]
    obtain ⟨σc, hval, hown, hframe⟩ := upd4_get_reg (st3 eqs dt t σ reg) reg
      (writeCommit eqs dt t σ reg) hinj i
    rw [hval]
    simp only [writeCommit]
    rw [hframe _ (fun j => horb i j), hst3 i]

/-- A concrete RHS instantiation for the C6 witness. -/
def eqsW : Fin 4 → ℚ → (Fin 4 → NDArr) → NDArr := fun _ _ _ => constArr [1] 1

/-- A concrete 4-cell heap for the C6 witness. -/
def storeW : ArrStore := ⟨4, fun _ => constArr [1] 2⟩

/-- Concrete core references for the C6 witness. -/
def regW : Fin 4 → ℕ := fun i => i.val

/-- C6 witness: the snapshot cell of the density variable still holds the
pre-step value after a full concrete RK4 cycle. -/
theorem rk4_orig_snapshot_immutable_witness :
    (stFinal eqsW 1 0 storeW regW).get (storeW.size + (0 : Fin 4).val)
      = storeW.get (regW 0) :=
  (rk4_orig_snapshot_immutable eqsW 1 0 storeW regW (by decide)
    (fun i j h => by
      have : i.val = j.val := h
      exact Fin.ext this)).1 0

/-- Pointwise identity behind shock_viscosity: scaling the absolute value of
the clamped (nonpositive-part) field agrees with the claimed case split. -/
theorem shock_value (c q : ℚ) :
    c * |if 0 < q then 0 else q| = if 0 ≤ q then 0 else c * |q| := by
  rcases lt_trichotomy q 0 with h | h | h
  · rw [if_neg (not_lt.mpr h.le), if_neg (not_le.mpr h)]
  · subst h
    simp
  · rw [if_pos h, if_pos h.le]
    simp

/-- C9: for every simulation state with a well-shaped velocity field and
every active axis, `shock_viscosity(axis)` returns a scalar field of the
domain shape whose value at each grid point is 0 where div(velocity) is
nonnegative and 0.4 * dx[axis]^2 * |div(velocity)| where div(velocity) is
negative. -/
theorem shock_viscosity_pointwise_spec (sim : Sim) (S : List ℕ) (a : ℕ)
    (hv : sim.plasma.velocity.shape = 3 :: S)
    (hdx : sim.solver.dx.length = S.length)
    (ha : a < sim.solver.dx.length) :
    (shock_viscosity sim a).map NDArr.shape = Except.ok S ∧
    ∀ idx, (shock_viscosity sim a).map (fun r => r.data idx) =
      (div sim.plasma.velocity sim.solver).map (fun d =>
        if 0 ≤ d.data idx then 0
        else 2 / 5 * (sim.solver.dx.getD a 0) ^ 2 * |d.data idx|) := by
  have hd := div_ok sim.plasma.velocity sim.solver S hv hdx
  constructor
  · simp only [shock_viscosity, hd, bind_ok, pure_eq_ok, map_ok]
    rw [shape_smulArr, shape_absArr, shape_zeroWherePos,
      div_payload_shape sim.plasma.velocity sim.solver S hv hdx]
  · intro idx
    simp only [shock_viscosity, hd, bind_ok, pure_eq_ok, map_ok]
    simp only [smulArr, absArr, zeroWherePos]
    rw [shock_value]

/-- A concrete 2-cell plasma for the C9 witness. -/
def plasmaC9 : Plasma :=
  ⟨constArr [2] 1, constArr [3, 2] 2, constArr [2] 0, constArr [3, 2] 0,
    [2], 5 / 3, 0, 0⟩

/-- Concrete simulation state for the C9 witness. -/
def simC9 : Sim := ⟨1 / 10, 0, 0, plasmaC9, ⟨[1], dval0⟩⟩

/-- C9 witness: the pointwise characterization at a concrete state, axis 0
and grid point [0]. -/
theorem shock_viscosity_pointwise_spec_witness :
    (shock_viscosity simC9 0).map NDArr.shape = Except.ok [2] ∧
    (shock_viscosity simC9 0).map (fun r => r.data [0]) =
      (div simC9.plasma.velocity simC9.solver).map (fun d =>
        if 0 ≤ d.data [0] then 0
        else 2 / 5 * (simC9.solver.dx.getD 0 0) ^ 2 * |d.data [0]|) := by
  have h := shock_viscosity_pointwise_spec simC9 [2] 0 rfl rfl (by decide)
  exact ⟨h.1, h.2 [0]⟩

end PlasmaPy
